import Mathlib

/-!
Shallow embedding of the sistema_carnes backend (server.js and the two
unnamed variant files) and proofs about its subscription gate, subscription
status endpoint, payment-success callback, booklet registration and
installment toggle handlers.

Conventions of the embedding:
* Timestamps are integers counting milliseconds (the JavaScript `Date`
  arithmetic in the source subtracts `Date` values as millisecond numbers).
* The relational store is a record of lists of rows, one list per table,
  in insertion order, together with the next AUTO_INCREMENT ids.
* A MySQL query that can fail is modelled by an explicit `dbErr` flag
  standing for the `err` argument of the node-mysql callback.
* An HTTP response is either a JSON response with a status code and a body
  string (the body is the `error` / message field of the JSON the source
  sends) or a redirect.
-/

namespace SistemaCarnes

/-- One millisecond-count day, the `1000 * 60 * 60 * 24` of the source. -/
def msPerDay : Int := 86400000

/-- `Math.ceil` of the rational `a / b` for `b > 0`, as JavaScript computes
`Math.ceil((expiracao - agora) / 86400000)`: ceiling is negated floor of the
negation, with `Int.fdiv` the flooring division. -/
def ceilDivInt (a b : Int) : Int := -((-a).fdiv b)

/-- `hasPref l pat` is true when `pat` is a prefix of `l` (character lists). -/
def hasPref : List Char → List Char → Bool
  | _, [] => true
  | [], _ :: _ => false
  | c :: cs, d :: ds => c == d && hasPref cs ds

/-- `hasSub l pat` is true when `pat` occurs contiguously inside `l`. -/
def hasSub : List Char → List Char → Bool
  | [], pat => pat.isEmpty
  | l@(_ :: cs), pat => hasPref l pat || hasSub cs pat

/-- JavaScript `s.includes(pat)` on strings. -/
def strIncludes (s pat : String) : Bool := hasSub s.data pat.data

/-- An HTTP response as the handlers produce it: a JSON body with a status
code (the body string is the message carried in the JSON), or a redirect. -/
inductive Resp where
  | json (status : Nat) (body : String)
  | redirect (location : String)
  deriving DecidableEq, Repr

/-- Outcome of an Express middleware: call `next()` or answer the request. -/
inductive MwResult where
  | next
  | respond (r : Resp)
  deriving DecidableEq, Repr

/-- A `config_sistema` row: per-account subscription record. -/
structure Config where
  usuarioId : Nat
  statusAssinatura : String
  dataExpiracao : Int
  deriving DecidableEq, Repr

/-- The allow-list of `verificarAssinatura` (identical in server.js and in
part_001): routes whose path bypasses the subscription check. -/
def rotasLivres : List String :=
  ["/auth/login", "/auth/register", "/api/criar-pagamento",
   "/api/pagamento-sucesso", "/api/status-assinatura"]

/-- `rotasLivres.some(r => req.path.includes(r))` of the source. -/
def isRotaLivre (path : String) : Bool := rotasLivres.any (fun r => strIncludes path r)

/-- `verificarToken` (server.js lines 169-181): missing header is 401
"Acesso negado"; otherwise the `Bearer ` prefix is stripped and the token is
verified; `verify` stands for `jwt.verify` with the server secret, returning
the account id of a valid token. -/
def verificarTokenV2 (verify : String → Option Nat) (auth : Option String) :
    Except Resp Nat :=
  match auth with
  | none => .error (.json 401 "Acesso negado")
  | some token =>
    let tokenReal := if "Bearer ".isPrefixOf token then token.drop 7 else token
    match verify tokenReal with
    | none => .error (.json 401 "Token inválido")
    | some uid => .ok uid

/-- `verificarAssinatura` of server.js (lines 184-207).  Allow-listed paths
pass; a store error makes the middleware call `next()`; the lookup uses
`req.userId || 1`; a missing record inserts a pre-expired row
(`DATE_SUB(NOW(), INTERVAL 1 DAY)`) and answers 403; a found record answers
403 when the stored status is "expirada" or `agora > expiracao`, else
passes. -/
def verificarAssinaturaV2 (dbErr : Bool) (cfgs : List Config) (uid : Nat)
    (now : Int) (path : String) : List Config × MwResult :=
  if isRotaLivre path then (cfgs, .next)
  else if dbErr then (cfgs, .next)
  else
    match cfgs.find? (fun c => c.usuarioId == (if uid == 0 then 1 else uid)) with
    | none =>
      (cfgs ++ [{ usuarioId := uid, statusAssinatura := "expirada",
                  dataExpiracao := now - msPerDay }],
       .respond (.json 403 "assinatura_expirada"))
    | some cfg =>
      if cfg.statusAssinatura = "expirada" ∨ now > cfg.dataExpiracao then
        (cfgs, .respond (.json 403 "assinatura_expirada"))
      else (cfgs, .next)

/-- `verificarAssinatura` of part_001 (lines 54-77).  Same allow-list and
fail-open error branch; a missing record inserts a fresh active 30-day trial
row and passes; a found record is denied only on `agora > expiracao` — the
stored status column is never consulted. -/
def verificarAssinaturaV4 (dbErr : Bool) (cfgs : List Config) (uid : Nat)
    (now : Int) (path : String) : List Config × MwResult :=
  if isRotaLivre path then (cfgs, .next)
  else if dbErr then (cfgs, .next)
  else
    match cfgs.find? (fun c => c.usuarioId == (if uid == 0 then 1 else uid)) with
    | none =>
      (cfgs ++ [{ usuarioId := uid, statusAssinatura := "ativa",
                  dataExpiracao := now + 30 * msPerDay }],
       .next)
    | some cfg =>
      if now > cfg.dataExpiracao then (cfgs, .respond (.json 403 "assinatura_expirada"))
      else (cfgs, .next)

/-- Reply of GET /api/status-assinatura. -/
structure StatusResp where
  status : String
  diasRestantes : Int
  deriving DecidableEq, Repr

/-- GET /api/status-assinatura of server.js (lines 251-265): error or
missing record reports expirada with 0 days; otherwise
`diasRestantes = Math.ceil((expiracao - agora) / 86400000)`, the final
status is "expirada" when the stored status is "expirada" or
`agora > expiracao`, and the days are floored at 0. -/
def statusAssinaturaV2 (dbErr : Bool) (cfgs : List Config) (uid : Nat)
    (now : Int) : StatusResp :=
  if dbErr then { status := "expirada", diasRestantes := 0 }
  else
    match cfgs.find? (fun c => c.usuarioId == uid) with
    | none => { status := "expirada", diasRestantes := 0 }
    | some cfg =>
      let dias := ceilDivInt (cfg.dataExpiracao - now) msPerDay
      { status := if cfg.statusAssinatura = "expirada" ∨ now > cfg.dataExpiracao
                  then "expirada" else "ativa",
        diasRestantes := if dias > 0 then dias else 0 }

/-- GET /api/status-assinatura of part_001 (lines 122-133): error or missing
record reports ativa with 30 days; otherwise the status is computed from
`agora > expiracao` alone (the stored status column is ignored) and
`dias_restantes` is returned without flooring at 0. -/
def statusAssinaturaV4 (dbErr : Bool) (cfgs : List Config) (uid : Nat)
    (now : Int) : StatusResp :=
  if dbErr then { status := "ativa", diasRestantes := 30 }
  else
    match cfgs.find? (fun c => c.usuarioId == uid) with
    | none => { status := "ativa", diasRestantes := 30 }
    | some cfg =>
      { status := if now > cfg.dataExpiracao then "expirada" else "ativa",
        diasRestantes := ceilDivInt (cfg.dataExpiracao - now) msPerDay }

/-- The renewal UPDATE of GET /api/pagamento-sucesso applied to one row:
`data_expiracao = DATE_ADD(NOW(), INTERVAL 30 DAY), status_assinatura = 'ativa'`. -/
def renewConfig (cfg : Config) (now : Int) : Config :=
  { cfg with statusAssinatura := "ativa", dataExpiracao := now + 30 * msPerDay }

/-- GET /api/pagamento-sucesso of server.js (lines 290-304): a missing or
empty `user` query parameter redirects to the error page; otherwise the
UPDATE renews every `config_sistema` row whose `usuario_id` matches (no row
need match) and the handler redirects to the home page. -/
def pagamentoSucessoV2 (cfgs : List Config) (user : Option Nat) (now : Int) :
    List Config × Resp :=
  match user with
  | none => (cfgs, .redirect "/?error=sem_usuario")
  | some uid =>
    (cfgs.map (fun c => if c.usuarioId == uid then renewConfig c now else c),
     .redirect "/")

/-- A `membros` row. -/
structure Membro where
  id : Nat
  nome : String
  telefone : String
  usuarioId : Nat
  deriving DecidableEq, Repr

/-- A `carnes` row of the multi-tenant variant
(`membro_id, numero_carne, valor_parcela, ano_referencia`). -/
structure Carne where
  id : Nat
  membroId : Nat
  numeroCarne : String
  valorParcela : Nat
  anoReferencia : Nat
  deriving DecidableEq, Repr

/-- A `parcelas` row. -/
structure Parcela where
  id : Nat
  carneId : Nat
  numeroParcela : Nat
  vencimento : String
  status : String
  dataPagamento : Option Int
  deriving DecidableEq, Repr

/-- The multi-tenant store: the three tables of the cadastrar flow plus the
AUTO_INCREMENT counters the inserts consume. -/
structure DB2 where
  membros : List Membro
  carnes : List Carne
  parcelas : List Parcela
  nextMembroId : Nat
  nextCarneId : Nat
  nextParcelaId : Nat
  deriving DecidableEq, Repr

/-- The MySQL DATE literal `y-m-d` (not zero padded, as the source builds it). -/
def mysqlDate (y m d : Nat) : String :=
  toString y ++ ("-" ++ (toString m ++ ("-" ++ toString d)))

/-- The template string of the parcelas loop in the source, the backtick
expression with year and month interpolated and the literal day suffix. -/
def vencStr (ano i : Nat) : String :=
  toString ano ++ ("-" ++ (toString i ++ "-10"))

/-- Modelled from the spec: the repository ships no schema DDL, and the
parcelas INSERT names only `carne_id, numero_parcela, vencimento`; the spec
states that Installments are created with status pending and a null paidAt,
so the column defaults are "pendente" and NULL. -/
def defaultParcelaStatus : String := "pendente"

/-- The batch of 12 `parcelas` rows the cadastrar loop inserts for booklet
`cid` in year `ano` (sequence numbers 1..12, due day 10 of each month). -/
def parcelasRows (cid startId ano : Nat) : List Parcela :=
  (List.range 12).map (fun k =>
    { id := startId + k, carneId := cid, numeroParcela := k + 1,
      vencimento := vencStr ano (k + 1), status := defaultParcelaStatus,
      dataPagamento := none })

/-- The request body of POST /api/cadastrar. -/
structure CadastrarReq where
  nome : String
  telefone : String
  numeroCarne : String
  valor : Nat
  ano : Nat
  deriving DecidableEq, Repr

/-- POST /api/cadastrar of server.js (lines 330-363).  Validation rejects a
falsy `nome`, `numero_carne`, `valor` or `ano` with 400 "Dados incompletos".
The three INSERTs then run as separate autocommitted statements with no
transaction: the membro insert always succeeds; the carne insert fails when
another carne already carries the same `numero_carne` (the UNIQUE key), in
which case the catch block answers 500 "Erro ao cadastrar carnê" while the
membro row stays in the store; otherwise the 12 parcelas are inserted and
the handler answers success. -/
def cadastrarV2 (db : DB2) (uid : Nat) (req : CadastrarReq) : DB2 × Resp :=
  if req.nome = "" ∨ req.numeroCarne = "" ∨ req.valor = 0 ∨ req.ano = 0 then
    (db, .json 400 "Dados incompletos")
  else
    let m : Membro := { id := db.nextMembroId, nome := req.nome,
                        telefone := req.telefone, usuarioId := uid }
    let db1 : DB2 := { db with membros := db.membros ++ [m],
                               nextMembroId := db.nextMembroId + 1 }
    if db.carnes.any (fun c => c.numeroCarne == req.numeroCarne) then
      (db1, .json 500 "Erro ao cadastrar carnê")
    else
      let c : Carne := { id := db1.nextCarneId, membroId := m.id,
                         numeroCarne := req.numeroCarne,
                         valorParcela := req.valor, anoReferencia := req.ano }
      let db2 : DB2 := { db1 with carnes := db1.carnes ++ [c],
                                  nextCarneId := db1.nextCarneId + 1 }
      let db3 : DB2 := { db2 with
        parcelas := db2.parcelas ++ parcelasRows c.id db2.nextParcelaId req.ano,
        nextParcelaId := db2.nextParcelaId + 12 }
      (db3, .json 200 "success")

/-- PUT /api/parcela/:id of server.js (lines 365-380): the SELECT finds the
row (error or empty result is 404 "Parcela não encontrada"); the status is
flipped pendente↔pago, `data_pagamento` is stamped with now on pendente→pago
and cleared to NULL otherwise, and the UPDATE writes every row with that id. -/
def toggleParcela (db : List Parcela) (id : Nat) (now : Int) :
    List Parcela × Resp :=
  match db.find? (fun p => p.id == id) with
  | none => (db, .json 404 "Parcela não encontrada")
  | some p =>
    let novo := if p.status = "pendente" then "pago" else "pendente"
    let dataPag : Option Int := if novo = "pago" then some now else none
    (db.map (fun q => if q.id == id then
        { q with status := novo, dataPagamento := dataPag } else q),
     .json 200 novo)

/-- PUT /api/parcela/:id of part_000 (lines 207-212).  There is no
empty-result check: when the SELECT returns no row, `r[0]` is `undefined`
and reading `.status` throws an uncaught TypeError inside the driver
callback — no HTTP response is produced; `none` models that crash.
Otherwise the flip is as in server.js and the reply carries the new status. -/
def togglePart000 (db : List Parcela) (id : Nat) (now : Int) :
    Option (List Parcela × Resp) :=
  match db.find? (fun p => p.id == id) with
  | none => none
  | some p =>
    let novo := if p.status = "pendente" then "pago" else "pendente"
    let dataPag : Option Int := if novo = "pago" then some now else none
    some (db.map (fun q => if q.id == id then
        { q with status := novo, dataPagamento := dataPag } else q),
      .json 200 novo)

/-- A `carnes` row of the single-tenant variant (first file of server.js). -/
structure CarneV1 where
  id : Nat
  nome : String
  telefone : String
  numeroCarne : String
  deriving DecidableEq, Repr

/-- A `folhas` row as the V1 batch insert creates it. -/
structure FolhaV1 where
  carneId : Nat
  numeroFolha : Nat
  deriving DecidableEq, Repr

/-- The single-tenant store. -/
structure DBV1 where
  carnes : List CarneV1
  folhas : List FolhaV1
  nextCarneId : Nat
  deriving DecidableEq, Repr

/-- POST /api/carnes of the first server.js variant (lines 73-105): the two
INSERTs run inside one transaction; a duplicate `numero_carne` raises
ER_DUP_ENTRY, the transaction is rolled back (store unchanged) and the
handler answers 400 "Número de carnê já existe."; otherwise the carne row
and its 12 folhas are committed and the handler answers 201. -/
def carnesV1Post (db : DBV1) (nome telefone numero : String) : DBV1 × Resp :=
  if db.carnes.any (fun c => c.numeroCarne == numero) then
    (db, .json 400 "Número de carnê já existe.")
  else
    let cid := db.nextCarneId
    ({ carnes := db.carnes ++ [{ id := cid, nome := nome, telefone := telefone,
                                 numeroCarne := numero }],
       folhas := db.folhas ++ (List.range 12).map
         (fun k => { carneId := cid, numeroFolha := k + 1 }),
       nextCarneId := cid + 1 },
     .json 201 "Carnê gerado com sucesso!")

/-- One row of the dashboard join. -/
structure DashRow where
  memberId : Nat
  nome : String
  telefone : String
  carneId : Nat
  numeroCarne : String
  pagas : Nat
  deriving DecidableEq, Repr

/-- The dashboard SELECT: membros of the account joined with their carnes,
each with the count of its paid parcelas, members most recent first. -/
def dashboardRows (db : DB2) (uid : Nat) : List DashRow :=
  ((db.membros.filter (fun m => m.usuarioId == uid)).reverse).flatMap (fun m =>
    (db.carnes.filter (fun c => c.membroId == m.id)).map (fun c =>
      { memberId := m.id, nome := m.nome, telefone := m.telefone,
        carneId := c.id, numeroCarne := c.numeroCarne,
        pagas := (db.parcelas.filter
          (fun p => p.carneId == c.id && p.status == "pago")).length }))

/-- GET /api/dashboard of server.js (lines 308-321): a store error is
`res.status(500).send(err)` (no rows), otherwise 200 with the join result. -/
def dashboardV2 (dbErr : Bool) (db : DB2) (uid : Nat) :
    Nat × Option (List DashRow) :=
  if dbErr then (500, none) else (200, some (dashboardRows db uid))

/-- Insertion into a list sorted by `numero_parcela`. -/
def insertByNum (p : Parcela) : List Parcela → List Parcela
  | [] => [p]
  | q :: qs => if p.numeroParcela ≤ q.numeroParcela then p :: q :: qs
               else q :: insertByNum p qs

/-- Sort by `numero_parcela` ascending, the ORDER BY of the parcelas SELECT. -/
def sortByNum : List Parcela → List Parcela
  | [] => []
  | p :: ps => insertByNum p (sortByNum ps)

/-- GET /api/carne/:id/parcelas of part_000 (lines 188-190): the callback is
`(err, r) => res.json(r)` — the error argument is ignored, so a store error
still answers HTTP 200 with an undefined body (`none`); on success the rows
of the booklet are returned ordered by sequence number. -/
def parcelasPart000 (dbErr : Bool) (parcelas : List Parcela) (cid : Nat) :
    Nat × Option (List Parcela) :=
  if dbErr then (200, none)
  else (200, some (sortByNum (parcelas.filter (fun p => p.carneId == cid))))

/-- The /api middleware chain applied to a request for the payment-success
callback: `app.use('/api', verificarToken)` runs first on every /api path,
then `verificarAssinatura`, then the handler. `path` is `req.path` as the
middlewares observe it and `user` the `user` query parameter. -/
def apiPagamentoSucessoRequest (verify : String → Option Nat)
    (auth : Option String) (path : String) (cfgs : List Config)
    (user : Option Nat) (now : Int) : List Config × Resp :=
  match verificarTokenV2 verify auth with
  | .error r => (cfgs, r)
  | .ok uid =>
    match verificarAssinaturaV2 false cfgs uid now path with
    | (cfgs1, .respond r) => (cfgs1, r)
    | (cfgs1, .next) => pagamentoSucessoV2 cfgs1 user now

/-! Helper lemmas. -/

/-- `find?` commutes with a map that does not change the id of a row. -/
theorem find?_map_of_id_invariant (f : Parcela → Parcela) (id : Nat)
    (hf : ∀ q, (f q).id = q.id) :
    ∀ l : List Parcela,
      (l.map f).find? (fun q => q.id == id) =
        (l.find? (fun q => q.id == id)).map f := by
  intro l
  induction l with
  | nil => rfl
  | cons a as ih =>
    have hfa : ((f a).id == id) = (a.id == id) := by rw [hf a]
    simp only [List.map_cons, List.find?_cons, hfa]
    cases h : (a.id == id) <;> simp [ih]

/-- The store after a successful toggle, observed at the toggled id. -/
theorem toggleParcela_find? (db : List Parcela) (id : Nat) (t : Int)
    (p : Parcela) (hfind : db.find? (fun q => q.id == id) = some p) :
    ((toggleParcela db id t).1).find? (fun q => q.id == id) =
      some { p with
        status := if p.status = "pendente" then "pago" else "pendente",
        dataPagamento := if p.status = "pendente" then some t else none } := by
  have hp : (p.id == id) = true := by
    simpa using List.find?_some hfind
  unfold toggleParcela
  rw [hfind]
  simp only
  rw [find?_map_of_id_invariant _ id
       (fun q => by by_cases h : (q.id == id) = true <;> simp [h]) db, hfind]
  simp only [Option.map_some']
  rw [if_pos hp]
  by_cases hs : p.status = "pendente" <;> simp [hs]

/-- The interpolated due-date string of the source is the MySQL date literal
for day 10 of month `i` of year `a`. -/
theorem vencStr_eq_mysqlDate (a i : Nat) : vencStr a i = mysqlDate a i 10 := by
  have h : ("-10" : String) = "-" ++ toString (10 : Nat) := by decide
  unfold vencStr mysqlDate
  rw [h]

/-- A renewal UPDATE whose WHERE clause matches no row leaves the table
unchanged. -/
theorem map_eq_self_of_no_match (uid : Nat) (now : Int) :
    ∀ cfgs : List Config, (∀ c ∈ cfgs, c.usuarioId ≠ uid) →
      cfgs.map (fun c => if c.usuarioId == uid then renewConfig c now else c)
        = cfgs := by
  intro cfgs
  induction cfgs with
  | nil => intro _; rfl
  | cons c cs ih =>
    intro h
    have hc : (c.usuarioId == uid) = false := by
      simpa using h c (List.mem_cons_self c cs)
    simp only [List.map_cons, hc, Bool.false_eq_true, if_false]
    rw [ih (fun x hx => h x (List.mem_cons_of_mem c hx))]

/-! Claim theorems. -/

/-- C1: evaluating POST /api/cadastrar at the failing input — a store that
already holds a booklet numbered "001" — shows the handler answer 500 while
the freshly inserted Membro row stays in the store and no Carne or Parcela
row is added: the three inserts are not atomic, contradicting the claimed
all-or-nothing behavior. -/
theorem cadastrar_leaves_membro_on_failed_carne_insert :
    (cadastrarV2
      { membros := [{ id := 1, nome := "Bia", telefone := "8", usuarioId := 1 }],
        carnes := [{ id := 1, membroId := 1, numeroCarne := "001",
                     valorParcela := 50, anoReferencia := 2023 }],
        parcelas := [], nextMembroId := 2, nextCarneId := 2, nextParcelaId := 1 }
      1 { nome := "Ana", telefone := "9", numeroCarne := "001",
          valor := 50, ano := 2024 }) =
    ({ membros := [{ id := 1, nome := "Bia", telefone := "8", usuarioId := 1 },
                   { id := 2, nome := "Ana", telefone := "9", usuarioId := 1 }],
       carnes := [{ id := 1, membroId := 1, numeroCarne := "001",
                    valorParcela := 50, anoReferencia := 2023 }],
       parcelas := [], nextMembroId := 3, nextCarneId := 2, nextParcelaId := 1 },
     Resp.json 500 "Erro ao cadastrar carnê") := by decide

/-- C2 counterexample: part_001's `verificarAssinatura`, given a record with
stored status "expirada" whose expiry lies in the future, lets the protected
request through instead of answering 403 assinatura_expirada, refuting the
claim that the gate allows iff the stored status is active and now is within
the expiry. -/
theorem gate_v4_allows_expired_status_cex :
    (verificarAssinaturaV4 false
      [{ usuarioId := 1, statusAssinatura := "expirada", dataExpiracao := 86400000 }]
      1 0 "/dashboard").2 = MwResult.next ∧
    MwResult.next ≠ MwResult.respond (Resp.json 403 "assinatura_expirada") := by
  decide

/-- C2 amended: for server.js's `verificarAssinatura`, on a protected path
with a well-formed record found for the account, the gate calls next iff the
stored status is "ativa" and now is at most the expiry, and answers 403
assinatura_expirada otherwise. -/
theorem gate_v2_allows_iff_active_and_unexpired (cfgs : List Config)
    (uid : Nat) (now : Int) (path : String) (cfg : Config)
    (hpath : isRotaLivre path = false) (h0 : uid ≠ 0)
    (hfind : cfgs.find? (fun c => c.usuarioId == uid) = some cfg)
    (hwf : cfg.statusAssinatura = "ativa" ∨ cfg.statusAssinatura = "expirada") :
    (verificarAssinaturaV2 false cfgs uid now path).2 =
      (if cfg.statusAssinatura = "ativa" ∧ now ≤ cfg.dataExpiracao
       then MwResult.next
       else MwResult.respond (Resp.json 403 "assinatura_expirada")) := by
  have h0' : (uid == 0) = false := by simpa using h0
  unfold verificarAssinaturaV2
  simp only [hpath, Bool.false_eq_true, if_false, h0', hfind]
  rcases hwf with hs | hs <;> rw [hs] <;>
    by_cases he : now ≤ cfg.dataExpiracao <;>
      simp [he, not_lt.mpr, lt_iff_not_ge]

/-- C2 witness: a concrete active unexpired record passes the gate. -/
theorem gate_v2_allows_iff_active_and_unexpired_witness :
    (verificarAssinaturaV2 false
      [{ usuarioId := 1, statusAssinatura := "ativa", dataExpiracao := 100 }]
      1 0 "/dashboard").2 = MwResult.next := by
  have h := gate_v2_allows_iff_active_and_unexpired
    [{ usuarioId := 1, statusAssinatura := "ativa", dataExpiracao := 100 }]
    1 0 "/dashboard"
    { usuarioId := 1, statusAssinatura := "ativa", dataExpiracao := 100 }
    (by decide) (by decide) (by decide) (Or.inl rfl)
  rw [h, if_pos ⟨rfl, by decide⟩]

/-- C3 counterexample: part_001's GET /api/status-assinatura reports status
"ativa" for a record whose stored status is "expirada" (the claim demands
"expired" there), and reports dias_restantes = -3 for an expiry three days
in the past (the claim demands a floor at 0). -/
theorem status_v4_ignores_stored_status_cex :
    statusAssinaturaV4 false
      [{ usuarioId := 1, statusAssinatura := "expirada",
         dataExpiracao := 100 * 86400000 }] 1 0 =
      { status := "ativa", diasRestantes := 100 } ∧
    ("ativa" : String) ≠ "expirada" ∧
    statusAssinaturaV4 false
      [{ usuarioId := 2, statusAssinatura := "ativa",
         dataExpiracao := -3 * 86400000 }] 2 0 =
      { status := "expirada", diasRestantes := -3 } := by
  decide

/-- C3 amended: server.js's GET /api/status-assinatura does satisfy the
claimed formula — days remaining is the ceiling of the millisecond gap over
one day floored at zero, and the status is "expirada" exactly when the
stored status is "expirada" or now is past the expiry — and immediately
after the renewal UPDATE it reports status "ativa" with 30 days left. -/
theorem status_v2_formula_and_renew (cfgs : List Config) (uid : Nat)
    (now : Int) (cfg : Config)
    (hfind : cfgs.find? (fun c => c.usuarioId == uid) = some cfg) :
    statusAssinaturaV2 false cfgs uid now =
      { status := if cfg.statusAssinatura = "expirada" ∨ now > cfg.dataExpiracao
                  then "expirada" else "ativa",
        diasRestantes := max 0 (ceilDivInt (cfg.dataExpiracao - now) msPerDay) } ∧
    ∀ t : Int, statusAssinaturaV2 false [renewConfig cfg t] cfg.usuarioId t =
      { status := "ativa", diasRestantes := 30 } := by
  constructor
  · unfold statusAssinaturaV2
    simp only [Bool.false_eq_true, if_false, hfind]
    have hmax : ∀ d : Int, (if d > 0 then d else 0) = max 0 d := by
      intro d
      rcases lt_or_ge 0 d with h | h
      · rw [if_pos h, max_eq_right h.le]
      · rw [if_neg (not_lt.mpr h), max_eq_left h]
    rw [hmax]
  · intro t
    unfold statusAssinaturaV2
    have hfind2 : ([renewConfig cfg t]).find?
        (fun c => c.usuarioId == cfg.usuarioId) = some (renewConfig cfg t) := by
      simp [List.find?, renewConfig]
    simp only [Bool.false_eq_true, if_false, hfind2]
    have hd : ceilDivInt ((renewConfig cfg t).dataExpiracao - t) msPerDay = 30 := by
      show ceilDivInt (t + 30 * msPerDay - t) msPerDay = 30
      have h30 : t + 30 * msPerDay - t = 30 * msPerDay := by ring
      rw [h30]
      decide
    have hlt : ¬ (t > (renewConfig cfg t).dataExpiracao) := by
      show ¬ (t > t + 30 * msPerDay)
      unfold msPerDay
      omega
    have hst : (renewConfig cfg t).statusAssinatura = "ativa" := rfl
    simp [hst, hd, hlt]

/-- C3 witness: the formula and the after-renew behavior at a concrete
record one day from expiry. -/
theorem status_v2_formula_and_renew_witness :
    statusAssinaturaV2 false
      [{ usuarioId := 1, statusAssinatura := "ativa", dataExpiracao := 86400000 }]
      1 0 = { status := "ativa", diasRestantes := 1 } ∧
    statusAssinaturaV2 false
      [renewConfig { usuarioId := 1, statusAssinatura := "ativa",
                     dataExpiracao := 86400000 } 0] 1 0 =
      { status := "ativa", diasRestantes := 30 } := by
  have h := status_v2_formula_and_renew
    [{ usuarioId := 1, statusAssinatura := "ativa", dataExpiracao := 86400000 }]
    1 0 { usuarioId := 1, statusAssinatura := "ativa", dataExpiracao := 86400000 }
    (by decide)
  refine ⟨?_, h.2 0⟩
  rw [h.1]
  decide

/-- C4 counterexample: a second cadastrar call with an already used booklet
number answers HTTP 500 with the generic message, not the claimed HTTP 400
duplicate-number error. -/
theorem cadastrar_duplicate_returns_500_cex :
    (cadastrarV2
      { membros := [], carnes := [{ id := 1, membroId := 1, numeroCarne := "007",
                                    valorParcela := 10, anoReferencia := 2023 }],
        parcelas := [], nextMembroId := 1, nextCarneId := 2, nextParcelaId := 1 }
      3 { nome := "Eva", telefone := "7", numeroCarne := "007",
          valor := 10, ano := 2024 }).2 = Resp.json 500 "Erro ao cadastrar carnê" ∧
    Resp.json 500 "Erro ao cadastrar carnê" ≠
      Resp.json 400 "Número de carnê já existe." := by
  decide

/-- C4 amended: a cadastrar call whose booklet number already exists fails —
with HTTP 500 "Erro ao cadastrar carnê" from POST /api/cadastrar, while the
older transactional POST /api/carnes answers HTTP 400 "Número de carnê já
existe." and rolls back — and when exactly one booklet carried that number
before the call, exactly one does afterwards. -/
theorem duplicate_numero_fails_and_unique_count (db : DB2) (uid : Nat)
    (req : CadastrarReq)
    (hnome : req.nome ≠ "") (hnum : req.numeroCarne ≠ "")
    (hval : req.valor ≠ 0) (hano : req.ano ≠ 0)
    (hdup : db.carnes.any (fun c => c.numeroCarne == req.numeroCarne) = true)
    (hone : db.carnes.countP (fun c => c.numeroCarne == req.numeroCarne) = 1)
    (dbv1 : DBV1) (nome telefone numero : String)
    (hdupv1 : dbv1.carnes.any (fun c => c.numeroCarne == numero) = true) :
    (cadastrarV2 db uid req).2 = Resp.json 500 "Erro ao cadastrar carnê" ∧
    (cadastrarV2 db uid req).1.carnes.countP
      (fun c => c.numeroCarne == req.numeroCarne) = 1 ∧
    carnesV1Post dbv1 nome telefone numero =
      (dbv1, Resp.json 400 "Número de carnê já existe.") := by
  unfold cadastrarV2 carnesV1Post
  rw [if_neg (by simp [hnome, hnum, hval, hano]), if_pos hdup, if_pos hdupv1]
  exact ⟨rfl, hone, rfl⟩

/-- C4 witness: concrete duplicate calls in both variants. -/
theorem duplicate_numero_fails_and_unique_count_witness :
    (cadastrarV2
      { membros := [], carnes := [{ id := 1, membroId := 1, numeroCarne := "007",
                                    valorParcela := 10, anoReferencia := 2023 }],
        parcelas := [], nextMembroId := 1, nextCarneId := 2, nextParcelaId := 1 }
      3 { nome := "Eva", telefone := "7", numeroCarne := "007",
          valor := 10, ano := 2024 }).2 = Resp.json 500 "Erro ao cadastrar carnê" ∧
    (cadastrarV2
      { membros := [], carnes := [{ id := 1, membroId := 1, numeroCarne := "007",
                                    valorParcela := 10, anoReferencia := 2023 }],
        parcelas := [], nextMembroId := 1, nextCarneId := 2, nextParcelaId := 1 }
      3 { nome := "Eva", telefone := "7", numeroCarne := "007",
          valor := 10, ano := 2024 }).1.carnes.countP
      (fun c => c.numeroCarne == "007") = 1 ∧
    carnesV1Post { carnes := [{ id := 1, nome := "Bia", telefone := "8",
                                numeroCarne := "007" }],
                   folhas := [], nextCarneId := 2 } "Eva" "7" "007" =
      ({ carnes := [{ id := 1, nome := "Bia", telefone := "8",
                      numeroCarne := "007" }],
         folhas := [], nextCarneId := 2 },
       Resp.json 400 "Número de carnê já existe.") :=
  duplicate_numero_fails_and_unique_count _ 3 _
    (by decide) (by decide) (by decide) (by decide) (by decide) (by decide)
    _ "Eva" "7" "007" (by decide)

/-- C5: evaluating the /api middleware chain at the failing input — a
payment-success callback request carrying only the user query parameter and
no Authorization header — shows `verificarToken` answer 401 "Acesso negado"
before the handler runs, leaving the subscription store untouched; the claim
(and the spec's route table) says this callback requires no authentication
and renews the account. -/
theorem pagamento_sucesso_requires_token_bug :
    apiPagamentoSucessoRequest (fun _ => none) none "/pagamento-sucesso"
      [{ usuarioId := 1, statusAssinatura := "expirada", dataExpiracao := 0 }]
      (some 1) 86400000 =
    ([{ usuarioId := 1, statusAssinatura := "expirada", dataExpiracao := 0 }],
     Resp.json 401 "Acesso negado") := by decide

/-- C6: toggling an existing installment twice restores its original status;
the first toggle of a pending row flips it to paid stamping paidAt with the
toggle time (and of a paid row to pending clearing paidAt), and the second
toggle flips it back, ending with paidAt cleared when the row began pending
and stamped with the second toggle time when it began paid. -/
theorem toggle_twice_restores_status (db : List Parcela) (id : Nat)
    (t1 t2 : Int) (p : Parcela)
    (hfind : db.find? (fun q => q.id == id) = some p)
    (hst : p.status = "pendente" ∨ p.status = "pago") :
    ((toggleParcela db id t1).1).find? (fun q => q.id == id) =
      some { p with
        status := if p.status = "pendente" then "pago" else "pendente",
        dataPagamento := if p.status = "pendente" then some t1 else none } ∧
    ((toggleParcela (toggleParcela db id t1).1 id t2).1).find?
        (fun q => q.id == id) =
      some { p with
        dataPagamento := if p.status = "pendente" then none else some t2 } := by
  obtain ⟨pid, pcid, pnum, pven, pst, ppa⟩ := p
  have h1 := toggleParcela_find? db id t1 _ hfind
  refine ⟨h1, ?_⟩
  have h2 := toggleParcela_find? _ id t2 _ h1
  rcases hst with hs | hs <;>
  · have hs' : pst = _ := hs
    simp only [hs'] at h2 ⊢
    simpa using h2

/-- A concrete pending installment row used to witness the double toggle. -/
def rowPendente : Parcela :=
  { id := 1, carneId := 1, numeroParcela := 1, vencimento := "2024-1-10",
    status := "pendente", dataPagamento := none }

/-- The same row after the first toggle at time 5. -/
def rowPago5 : Parcela :=
  { id := 1, carneId := 1, numeroParcela := 1, vencimento := "2024-1-10",
    status := "pago", dataPagamento := some 5 }

/-- C6 witness: a concrete pending installment toggled at times 5 and 9. -/
theorem toggle_twice_restores_status_witness :
    ((toggleParcela [rowPendente] 1 5).1).find? (fun q => q.id == 1) =
      some rowPago5 ∧
    ((toggleParcela (toggleParcela [rowPendente] 1 5).1 1 9).1).find?
        (fun q => q.id == 1) = some rowPendente := by
  have h := toggle_twice_restores_status [rowPendente] 1 5 9 rowPendente
    rfl (Or.inl rfl)
  refine ⟨?_, ?_⟩
  · rw [h.1]
    decide
  · rw [h.2]
    decide

/-- C7: a cadastrar call that passes validation and whose booklet number is
fresh succeeds and appends to the parcelas table exactly 12 rows carrying
sequence numbers 1..12, status pendente, and due date day 10 of month
sequenceNumber of the requested year. -/
theorem cadastrar_creates_12_parcelas (db : DB2) (uid : Nat)
    (req : CadastrarReq)
    (hnome : req.nome ≠ "") (hnum : req.numeroCarne ≠ "")
    (hval : req.valor ≠ 0) (hano : req.ano ≠ 0)
    (hdup : db.carnes.any (fun c => c.numeroCarne == req.numeroCarne) = false) :
    (cadastrarV2 db uid req).2 = Resp.json 200 "success" ∧
    (cadastrarV2 db uid req).1.parcelas =
      db.parcelas ++ parcelasRows db.nextCarneId db.nextParcelaId req.ano ∧
    (parcelasRows db.nextCarneId db.nextParcelaId req.ano).length = 12 ∧
    ∀ j, j < 12 →
      (parcelasRows db.nextCarneId db.nextParcelaId req.ano)[j]? =
        some { id := db.nextParcelaId + j, carneId := db.nextCarneId,
               numeroParcela := j + 1,
               vencimento := mysqlDate req.ano (j + 1) 10,
               status := "pendente", dataPagamento := none } := by
  have h1 : ¬ (req.nome = "" ∨ req.numeroCarne = "" ∨
      req.valor = 0 ∨ req.ano = 0) := by
    simp [hnome, hnum, hval, hano]
  refine ⟨?_, ?_, by simp [parcelasRows], ?_⟩
  · unfold cadastrarV2
    rw [if_neg h1]
    simp [hdup]
  · unfold cadastrarV2
    rw [if_neg h1]
    simp [hdup]
  · intro j hj
    unfold parcelasRows
    rw [List.getElem?_map, List.getElem?_range hj]
    simp [vencStr_eq_mysqlDate, defaultParcelaStatus]

/-- C7 witness: cadastrar on an empty store for year 2024, checked at the
first of the 12 generated rows. -/
theorem cadastrar_creates_12_parcelas_witness :
    (cadastrarV2 { membros := [], carnes := [], parcelas := [],
                   nextMembroId := 1, nextCarneId := 1, nextParcelaId := 1 }
      1 { nome := "Ana", telefone := "9", numeroCarne := "001",
          valor := 50, ano := 2024 }).2 = Resp.json 200 "success" ∧
    (parcelasRows 1 1 2024)[0]? =
      some { id := 1, carneId := 1, numeroParcela := 1,
             vencimento := mysqlDate 2024 1 10,
             status := "pendente", dataPagamento := none } := by
  have h := cadastrar_creates_12_parcelas
    { membros := [], carnes := [], parcelas := [],
      nextMembroId := 1, nextCarneId := 1, nextParcelaId := 1 }
    1 { nome := "Ana", telefone := "9", numeroCarne := "001",
        valor := 50, ano := 2024 }
    (by decide) (by decide) (by decide) (by decide) rfl
  exact ⟨h.1, h.2.2.2 0 (by decide)⟩

/-- C8 counterexample: part_000's PUT /api/parcela/:id on a missing id does
not answer 404 — the callback dereferences the undefined first row and
throws, producing no HTTP response at all (modelled as `none`). -/
theorem toggle_part000_missing_id_crashes_cex :
    togglePart000 [] 5 0 = none ∧
    (none : Option (List Parcela × Resp)) ≠
      some ([], Resp.json 404 "Parcela não encontrada") := by decide

/-- C8 amended: on an unknown installment id, server.js's handler answers
404 "Parcela não encontrada" with the store unchanged, while part_000's
variant crashes with an uncaught TypeError instead of responding — in both
variants no installment row is modified. -/
theorem toggle_notfound_404_and_unchanged (db : List Parcela) (id : Nat)
    (now : Int) (h : db.find? (fun p => p.id == id) = none) :
    toggleParcela db id now = (db, Resp.json 404 "Parcela não encontrada") ∧
    togglePart000 db id now = none := by
  unfold toggleParcela togglePart000
  rw [h]
  exact ⟨rfl, rfl⟩

/-- C8 witness: unknown id 5 on an empty store. -/
theorem toggle_notfound_404_and_unchanged_witness :
    toggleParcela [] 5 0 = ([], Resp.json 404 "Parcela não encontrada") ∧
    togglePart000 [] 5 0 = none :=
  toggle_notfound_404_and_unchanged [] 5 0 rfl

/-- C9 counterexample: a store failure during the subscription-gate lookup
makes server.js's gate call next (the request proceeds instead of failing
with 500), and a store failure in part_000's installment read still answers
HTTP 200 — refuting the claim that every store-layer failure becomes 500. -/
theorem gate_db_error_fails_open_cex :
    (verificarAssinaturaV2 true [] 1 0 "/dashboard").2 = MwResult.next ∧
    parcelasPart000 true [] 1 = (200, none) := by decide

/-- C9 amended: route handlers such as GET /api/dashboard do convert store
failures to HTTP 500, but the subscription gate fails open (a lookup error
makes it call next) and part_000's installment read answers 200 ignoring
the error. -/
theorem store_error_handling_mixed (db : DB2) (uid : Nat)
    (cfgs : List Config) (now : Int) (path : String) (ps : List Parcela)
    (cid : Nat) :
    dashboardV2 true db uid = (500, none) ∧
    (verificarAssinaturaV2 true cfgs uid now path).2 = MwResult.next ∧
    parcelasPart000 true ps cid = (200, none) := by
  refine ⟨rfl, ?_, rfl⟩
  unfold verificarAssinaturaV2
  cases h : isRotaLivre path <;> simp [h]

/-- C10: renewing via the payment-success callback for an account id that
has no subscription record leaves the subscription table exactly as it was
and still answers the success redirect. -/
theorem renew_unknown_account_no_change (cfgs : List Config) (uid : Nat)
    (now : Int) (h : ∀ c ∈ cfgs, c.usuarioId ≠ uid) :
    pagamentoSucessoV2 cfgs (some uid) now = (cfgs, Resp.redirect "/") := by
  show (cfgs.map (fun c => if c.usuarioId == uid then renewConfig c now else c),
        Resp.redirect "/") = (cfgs, Resp.redirect "/")
  rw [map_eq_self_of_no_match uid now cfgs h]

/-- C10 witness: renewing account 1 when only account 2 has a record. -/
theorem renew_unknown_account_no_change_witness :
    pagamentoSucessoV2
      [{ usuarioId := 2, statusAssinatura := "ativa", dataExpiracao := 5 }]
      (some 1) 0 =
    ([{ usuarioId := 2, statusAssinatura := "ativa", dataExpiracao := 5 }],
     Resp.redirect "/") :=
  renew_unknown_account_no_change _ 1 0 (by decide)

end SistemaCarnes
